import Mathlib

/-!
Verification of the service supervisor (`start_services.py`) and the chatbot
HTTP application (`backend/chatbot/app.py`).

The supervisor is embedded as a pure function over an abstract environment:
`launchOk k` tells whether the k-th `subprocess.Popen` call succeeds
(`start_service` returns a process rather than `None`), `probeOk k` tells
whether the k-th `check_service` call returns `True`, and an
`InterruptPoint` says at which program point (if any) a `KeyboardInterrupt`
is delivered.  Python semantics: `KeyboardInterrupt` derives from
`BaseException`, so it is caught by neither `except Exception` handler in
the source; the only handler for it is the `try ... except KeyboardInterrupt`
wrapped around the post-ready idle loop in `main`.

The health prober `check_service` is embedded separately with an abstract
clock: each `requests.get` attempt is charged a duration (the per-attempt
network time), and each `time.sleep(2)` is charged 2 seconds.  Recursion is
fuel-indexed; `none` means the fuel ran out, every real run of interest is
reached with finite fuel.
-/

namespace StartServices

/-- A service descriptor, one entry of the `services_to_start` list in
`main` (name, command, working directory, health URL). -/
structure ServiceSpec where
  name : String
  command : List String
  dir : String
  url : String
deriving DecidableEq

/-- The registry literal from `main` in `start_services.py`. -/
def services_to_start : List ServiceSpec :=
  [ { name := "Chatbot", command := ["python", "app.py"],
      dir := "backend/chatbot", url := "http://localhost:5000/health" },
    { name := "Backend", command := ["npm", "start"],
      dir := "backend", url := "http://localhost:8080/health" } ]

/-- Where, if anywhere, a `KeyboardInterrupt` is delivered during `main`:
never, while the k-th launch is in progress, while the k-th health probe is
in progress, or during the post-ready `while True: time.sleep(1)` wait. -/
inductive InterruptPoint where
  | none
  | duringLaunch (k : Nat)
  | duringProbe (k : Nat)
  | duringIdleWait
deriving DecidableEq

/-- True when the interrupt point lies inside the startup phase (the launch
loop or the probe loop), before the post-ready idle wait. -/
def ipDuringStartup : InterruptPoint → Bool
  | .duringLaunch _ => true
  | .duringProbe _ => true
  | _ => false

/-- Result of the launch loop of `main`: all launches succeeded, the named
launch failed, or an interrupt arrived mid-loop.  Each constructor carries
the names passed to `start_service` (in call order) and the names appended
to the `processes` list (in append order). -/
inductive LaunchPhase where
  | ok (attempts launched : List String)
  | failed (attempts launched : List String) (service : String)
  | intr (attempts launched : List String)
deriving DecidableEq

/-- The launch loop of `main`: `for service in services_to_start`, calling
`start_service`; on a `None` result it stops with the failing name, and a
`KeyboardInterrupt` delivered during a launch propagates (it is a
`BaseException`, not caught by `start_service`'s `except Exception`). -/
def launchLoop (lo : Nat → Bool) (ip : InterruptPoint) :
    List ServiceSpec → Nat → List String → List String → LaunchPhase
  | [], _, atts, procs => .ok atts procs
  | s :: rest, k, atts, procs =>
    if ip = .duringLaunch k then .intr atts procs
    else if lo k then
      launchLoop lo ip rest (k + 1) (atts ++ [s.name]) (procs ++ [s.name])
    else .failed (atts ++ [s.name]) procs s.name

/-- Result of the probe loop of `main`: every `check_service` returned
`True`, the named probe returned `False` (the loop `break`s), or an
interrupt arrived mid-loop.  Each constructor carries the probed names in
call order and the names whose probe succeeded. -/
inductive ProbePhase where
  | allOk (attempts healthy : List String)
  | failed (attempts healthy : List String) (service : String)
  | intr (attempts healthy : List String)
deriving DecidableEq

/-- The probe loop of `main`: `for service in services_to_start`, calling
`check_service`; on `False` it sets `all_ready = False` and `break`s, and a
`KeyboardInterrupt` delivered during a probe propagates (`check_service`
catches only `Exception`). -/
def probeLoop (po : Nat → Bool) (ip : InterruptPoint) :
    List ServiceSpec → Nat → List String → List String → ProbePhase
  | [], _, atts, healthy => .allOk atts healthy
  | s :: rest, k, atts, healthy =>
    if ip = .duringProbe k then .intr atts healthy
    else if po k then
      probeLoop po ip rest (k + 1) (atts ++ [s.name]) (healthy ++ [s.name])
    else .failed (atts ++ [s.name]) healthy s.name

/-- The startup-phase verdict of `main`, read off from which branch of the
source executes: the success print (`ready`, carrying the healthy names),
the launch-failure abort naming the failed service, the probe-failure
branch naming the service whose probe timed out, or an interrupt that cut
startup short. -/
inductive Verdict where
  | ready (healthy : List String)
  | launchFailure (service : String)
  | healthFailure (service : String)
  | interrupted
deriving DecidableEq

/-- How the `main` function itself ends: a normal `return` (falls off the
end or hits a `return` statement), an uncaught `KeyboardInterrupt`
propagating out, or blocking forever in `while True: time.sleep(1)`
because no interrupt ever arrives. -/
inductive Outcome where
  | returned
  | raisedInterrupt
  | idleForever
deriving DecidableEq

/-- Everything observable about one run of `main`: names passed to
`start_service` in order, names appended to `processes`, names passed to
`check_service` in order, names whose probe succeeded, names on which
`.terminate()` was called in call order, the startup verdict, and how
`main` ended. -/
structure MainResult where
  launchAttempts : List String
  launched : List String
  probeAttempts : List String
  probedHealthy : List String
  terminated : List String
  verdict : Verdict
  outcome : Outcome
deriving DecidableEq

/-- The whole of `main` from `start_services.py`, over an arbitrary
registry: launch loop, then (only if every launch succeeded) probe loop,
then either the success branch — idle wait, interruptible, terminating
every process in `for p_info in processes` order — or the failure branch
terminating every process in the same forward order.  The launch-failure
abort likewise terminates the previously launched processes in forward
`processes` order and returns. -/
def runMain (registry : List ServiceSpec) (lo po : Nat → Bool)
    (ip : InterruptPoint) : MainResult :=
  match launchLoop lo ip registry 0 [] [] with
  | .intr atts procs =>
      { launchAttempts := atts, launched := procs, probeAttempts := [],
        probedHealthy := [], terminated := [],
        verdict := .interrupted, outcome := .raisedInterrupt }
  | .failed atts procs nm =>
      { launchAttempts := atts, launched := procs, probeAttempts := [],
        probedHealthy := [], terminated := procs,
        verdict := .launchFailure nm, outcome := .returned }
  | .ok atts procs =>
    match probeLoop po ip registry 0 [] [] with
    | .intr patts healthy =>
        { launchAttempts := atts, launched := procs, probeAttempts := patts,
          probedHealthy := healthy, terminated := [],
          verdict := .interrupted, outcome := .raisedInterrupt }
    | .failed patts healthy nm =>
        { launchAttempts := atts, launched := procs, probeAttempts := patts,
          probedHealthy := healthy, terminated := procs,
          verdict := .healthFailure nm, outcome := .returned }
    | .allOk patts healthy =>
        if ip = .duringIdleWait then
          { launchAttempts := atts, launched := procs, probeAttempts := patts,
            probedHealthy := healthy, terminated := procs,
            verdict := .ready healthy, outcome := .returned }
        else
          { launchAttempts := atts, launched := procs, probeAttempts := patts,
            probedHealthy := healthy, terminated := [],
            verdict := .ready healthy, outcome := .idleForever }

/-- Exit status of the supervisor process (`main()` run at module level):
a normal return of `main` exits the interpreter with status 0, an uncaught
`KeyboardInterrupt` exits with a nonzero status (130 on Unix), and the
idle-forever run never exits. -/
def exitCode (r : MainResult) : Option Nat :=
  match r.outcome with
  | .returned => some 0
  | .raisedInterrupt => some 130
  | .idleForever => Option.none

/-- Outcome of one `requests.get(url, timeout=5)` attempt inside
`check_service`, together with the wall-clock seconds the attempt took:
a response carrying an HTTP status code, a
`requests.exceptions.ConnectionError`, or any other exception (including a
per-attempt network timeout), which the source catches as `Exception`. -/
inductive AttemptResult where
  | response (status : Nat) (dur : Nat)
  | connError (dur : Nat)
  | otherError (dur : Nat)
deriving DecidableEq

/-- Wall-clock duration charged to an attempt. -/
def AttemptResult.dur : AttemptResult → Nat
  | .response _ d => d
  | .connError d => d
  | .otherError d => d

/-- One event in the trace of `check_service`: the n-th GET attempt with
its outcome, or a `time.sleep` of the given number of seconds. -/
inductive PEvent where
  | attempt (n : Nat) (r : AttemptResult)
  | wait (secs : Nat)
deriving DecidableEq

/-- Whether an event is an attempt that raised (connection error or other
exception) — the cases the source answers with `time.sleep(2)`. -/
def PEvent.isErrAttempt : PEvent → Bool
  | .attempt _ (.connError _) => true
  | .attempt _ (.otherError _) => true
  | _ => false

/-- Whether an event is an attempt that got an HTTP response back
(of any status). -/
def PEvent.isRespAttempt : PEvent → Bool
  | .attempt _ (.response _ _) => true
  | _ => false

/-- Whether an event is a `time.sleep`. -/
def PEvent.isWait : PEvent → Bool
  | .wait _ => true
  | _ => false

/-- The `while time.time() - start_time < timeout` loop of `check_service`,
over the abstract clock `t` (seconds since `start_time`) and the attempt
counter `n`.  A 200 response returns `true`; any other response re-enters
the loop immediately (the source's `if` falls through to the next
iteration with no sleep); a connection error or any other exception is
followed by `time.sleep(2)`.  Once `t < timeout` fails the function
returns `false` at time `t`.  `fuel` bounds the number of iterations;
`none` means it was exhausted.  The result carries the returned Boolean,
the clock at return, and the event trace. -/
def checkLoop (attempts : Nat → AttemptResult) (timeout : Nat) :
    Nat → Nat → Nat → Option (Bool × Nat × List PEvent)
  | 0, _, _ => Option.none
  | fuel + 1, t, n =>
    if t < timeout then
      match attempts n with
      | .response s d =>
        if s = 200 then some (true, t + d, [.attempt n (.response s d)])
        else
          (checkLoop attempts timeout fuel (t + d) (n + 1)).map
            (fun r => (r.1, r.2.1, .attempt n (.response s d) :: r.2.2))
      | .connError d =>
          (checkLoop attempts timeout fuel (t + d + 2) (n + 1)).map
            (fun r => (r.1, r.2.1, .attempt n (.connError d) :: .wait 2 :: r.2.2))
      | .otherError d =>
          (checkLoop attempts timeout fuel (t + d + 2) (n + 1)).map
            (fun r => (r.1, r.2.1, .attempt n (.otherError d) :: .wait 2 :: r.2.2))
    else some (false, t, [])

/-- `check_service(url, service_name, timeout)` from `start_services.py`:
start the clock at 0 and run the polling loop. -/
def check_service (attempts : Nat → AttemptResult) (timeout fuel : Nat) :
    Option (Bool × Nat × List PEvent) :=
  checkLoop attempts timeout fuel 0 0

/-- The clock value at which `check_service` returned, when it did. -/
def checkElapsed (r : Option (Bool × Nat × List PEvent)) : Option Nat :=
  r.map (fun x => x.2.1)

end StartServices

namespace ChatbotApp

/-- A JSON value as Flask's `request.json` delivers it (numbers restricted
to integers; the request bodies of interest carry strings). -/
inductive JVal where
  | jnull
  | jbool (b : Bool)
  | jnum (n : Int)
  | jstr (s : String)
  | jarr (elems : List JVal)
  | jobj (fields : List (String × JVal))

/-- Python truthiness on a JSON value: `None`, `False`, `0`, `""`, `[]`
and `{}` are falsy, everything else truthy.  The handler's guard is
`if not prompt`. -/
def JVal.falsy : JVal → Bool
  | .jnull => true
  | .jbool b => !b
  | .jnum n => n == 0
  | .jstr s => s == ""
  | .jarr elems => elems.isEmpty
  | .jobj fields => fields.isEmpty

/-- `data.get("prompt")`: first value bound to the key in the JSON object,
`none` when the key is absent. -/
def getKey (key : String) : List (String × JVal) → Option JVal
  | [] => Option.none
  | (k, v) :: rest => if k = key then some v else getKey key rest

/-- An HTTP response of the `chat` handler: status code, JSON body, and
whether `client.chat.completions.create` was called during the request. -/
structure ChatResponse where
  status : Nat
  body : List (String × JVal)
  llmInvoked : Bool

/-- The `chat` handler of `backend/chatbot/app.py`, with the LLM client
abstracted as `llm`: `Except.ok r` models a completion whose message
content is `r`, `Except.error e` models `create` raising an exception with
message `e` (`str(e)`).  A missing or falsy prompt returns 400 with
`{"error": "Prompt is required"}` before the client is touched; a
successful completion returns the default 200 with `{"response": ...}`;
an exception from the call returns 500 with `{"error": str(e)}`. -/
def chat (body : List (String × JVal)) (llm : JVal → Except String String) :
    ChatResponse :=
  match getKey "prompt" body with
  | Option.none =>
      { status := 400, body := [("error", .jstr "Prompt is required")],
        llmInvoked := false }
  | some p =>
    if p.falsy then
      { status := 400, body := [("error", .jstr "Prompt is required")],
        llmInvoked := false }
    else
      match llm p with
      | .ok r =>
          { status := 200, body := [("response", .jstr r)], llmInvoked := true }
      | .error e =>
          { status := 500, body := [("error", .jstr e)], llmInvoked := true }

/-- A registered Flask route: URL rule and allowed methods. -/
structure Route where
  path : String
  methods : List String
deriving DecidableEq

/-- The route table of the application: the single `@app.route('/chat',
methods=['POST'])` registration. -/
def app_routes : List Route := [{ path := "/chat", methods := ["POST"] }]

/-- The port `app.run(port=5001)` listens on. -/
def app_port : Nat := 5001

/-- Route dispatch: the first registered route whose rule matches the path
and whose method list contains the request method. -/
def matchRoute (method path : String) : Option Route :=
  app_routes.find? (fun r => r.path = path && r.methods.contains method)

end ChatbotApp

namespace StartServices

/-- If every launch in range succeeds and no interrupt hits the launch
loop, the loop returns `ok` having attempted and launched every service in
registry order. -/
theorem launchLoop_allOk (lo : Nat → Bool) (ip : InterruptPoint) :
    ∀ (l : List ServiceSpec) (k : Nat) (atts procs : List String),
    (∀ j, j < l.length → lo (k + j) = true) →
    (∀ j, ip ≠ .duringLaunch j) →
    launchLoop lo ip l k atts procs =
      .ok (atts ++ l.map (fun s => s.name)) (procs ++ l.map (fun s => s.name)) := by
  intro l
  induction l with
  | nil => intro k atts procs _ _; simp [launchLoop]
  | cons s rest ih =>
    intro k atts procs hok hip
    have h0 : lo k = true := by
      have := hok 0 (by simp)
      simpa using this
    have hrec := ih (k + 1) (atts ++ [s.name]) (procs ++ [s.name])
      (fun j hj => by
        have := hok (j + 1) (by simp; omega)
        rw [show k + 1 + j = k + (j + 1) by omega]
        exact this)
      hip
    simp [launchLoop, hip k, h0, hrec]

/-- If every probe in range succeeds and no interrupt hits the probe loop,
the loop returns `allOk` having probed every service in registry order,
all healthy. -/
theorem probeLoop_allOk (po : Nat → Bool) (ip : InterruptPoint) :
    ∀ (l : List ServiceSpec) (k : Nat) (atts healthy : List String),
    (∀ j, j < l.length → po (k + j) = true) →
    (∀ j, ip ≠ .duringProbe j) →
    probeLoop po ip l k atts healthy =
      .allOk (atts ++ l.map (fun s => s.name)) (healthy ++ l.map (fun s => s.name)) := by
  intro l
  induction l with
  | nil => intro k atts healthy _ _; simp [probeLoop]
  | cons s rest ih =>
    intro k atts healthy hok hip
    have h0 : po k = true := by
      have := hok 0 (by simp)
      simpa using this
    have hrec := ih (k + 1) (atts ++ [s.name]) (healthy ++ [s.name])
      (fun j hj => by
        have := hok (j + 1) (by simp; omega)
        rw [show k + 1 + j = k + (j + 1) by omega]
        exact this)
      hip
    simp [probeLoop, hip k, h0, hrec]

/-- If the launch at offset `j` fails while all earlier ones succeed and no
interrupt hits the launch loop, the loop returns `failed`: the failed
service was attempted but not launched, exactly the `j` earlier ones were
launched, and the failing name is reported. -/
theorem launchLoop_failAt (lo : Nat → Bool) (ip : InterruptPoint) :
    ∀ (j : Nat) (l : List ServiceSpec) (k : Nat) (atts procs : List String)
      (hj : j < l.length),
    (∀ i, i < j → lo (k + i) = true) →
    lo (k + j) = false →
    (∀ i, ip ≠ .duringLaunch i) →
    launchLoop lo ip l k atts procs =
      .failed (atts ++ ((l.take (j + 1)).map (fun s => s.name)))
        (procs ++ ((l.take j).map (fun s => s.name)))
        (l.get ⟨j, hj⟩).name := by
  intro j
  induction j with
  | zero =>
    intro l k atts procs hj hbefore hfail hip
    cases l with
    | nil => simp at hj
    | cons s rest =>
      have hf : lo k = false := by simpa using hfail
      simp [launchLoop, hip k, hf]
  | succ j ih =>
    intro l k atts procs hj hbefore hfail hip
    cases l with
    | nil => simp at hj
    | cons s rest =>
      have h0 : lo k = true := by
        have := hbefore 0 (by omega)
        simpa using this
      have hrec := ih rest (k + 1) (atts ++ [s.name]) (procs ++ [s.name])
        (by simpa using Nat.lt_of_succ_lt_succ hj)
        (fun i hi => by
          have := hbefore (i + 1) (by omega)
          rw [show k + 1 + i = k + (i + 1) by omega]
          exact this)
        (by
          rw [show k + 1 + j = k + (j + 1) by omega]
          exact hfail)
        hip
      simp [launchLoop, hip k, h0, hrec, List.take_succ_cons]

/-- If the probe at offset `j` fails while all earlier ones succeed and no
interrupt hits the probe loop, the loop returns `failed`: the failing
service was probed, exactly the `j` earlier ones are healthy, and the
failing name is reported. -/
theorem probeLoop_failAt (po : Nat → Bool) (ip : InterruptPoint) :
    ∀ (j : Nat) (l : List ServiceSpec) (k : Nat) (atts healthy : List String)
      (hj : j < l.length),
    (∀ i, i < j → po (k + i) = true) →
    po (k + j) = false →
    (∀ i, ip ≠ .duringProbe i) →
    probeLoop po ip l k atts healthy =
      .failed (atts ++ ((l.take (j + 1)).map (fun s => s.name)))
        (healthy ++ ((l.take j).map (fun s => s.name)))
        (l.get ⟨j, hj⟩).name := by
  intro j
  induction j with
  | zero =>
    intro l k atts healthy hj hbefore hfail hip
    cases l with
    | nil => simp at hj
    | cons s rest =>
      have hf : po k = false := by simpa using hfail
      simp [probeLoop, hip k, hf]
  | succ j ih =>
    intro l k atts healthy hj hbefore hfail hip
    cases l with
    | nil => simp at hj
    | cons s rest =>
      have h0 : po k = true := by
        have := hbefore 0 (by omega)
        simpa using this
      have hrec := ih rest (k + 1) (atts ++ [s.name]) (healthy ++ [s.name])
        (by simpa using Nat.lt_of_succ_lt_succ hj)
        (fun i hi => by
          have := hbefore (i + 1) (by omega)
          rw [show k + 1 + i = k + (i + 1) by omega]
          exact this)
        (by
          rw [show k + 1 + j = k + (j + 1) by omega]
          exact hfail)
        hip
      simp [probeLoop, hip k, h0, hrec, List.take_succ_cons]

/-- Without an interrupt aimed at the launch loop, the loop never reports
an interrupt. -/
theorem launchLoop_no_intr (lo : Nat → Bool) (ip : InterruptPoint)
    (hip : ∀ i, ip ≠ .duringLaunch i) :
    ∀ (l : List ServiceSpec) (k : Nat) (atts procs a b : List String),
    launchLoop lo ip l k atts procs ≠ .intr a b := by
  intro l
  induction l with
  | nil => intro k atts procs a b; simp [launchLoop]
  | cons s rest ih =>
    intro k atts procs a b
    by_cases h0 : lo k = true
    · simp [launchLoop, hip k, h0]
      exact ih (k + 1) _ _ a b
    · simp [launchLoop, hip k, h0]

/-- Without an interrupt aimed at the probe loop, the loop never reports
an interrupt. -/
theorem probeLoop_no_intr (po : Nat → Bool) (ip : InterruptPoint)
    (hip : ∀ i, ip ≠ .duringProbe i) :
    ∀ (l : List ServiceSpec) (k : Nat) (atts healthy a b : List String),
    probeLoop po ip l k atts healthy ≠ .intr a b := by
  intro l
  induction l with
  | nil => intro k atts healthy a b; simp [probeLoop]
  | cons s rest ih =>
    intro k atts healthy a b
    by_cases h0 : po k = true
    · simp [probeLoop, hip k, h0]
      exact ih (k + 1) _ _ a b
    · simp [probeLoop, hip k, h0]

/-- Every attempt that raised (connection error or other exception) is
immediately followed by a `time.sleep(2)` event. -/
def errThenWait : List PEvent → Bool
  | [] => true
  | e :: rest =>
    (if e.isErrAttempt then
      match rest with
      | .wait 2 :: _ => true
      | _ => false
     else true) && errThenWait rest

/-- No attempt that received an HTTP response is followed by a sleep: a
non-200 response re-enters the loop at once. -/
def noWaitAfterResponse : List PEvent → Bool
  | [] => true
  | e :: rest =>
    (if e.isRespAttempt then
      match rest with
      | .wait _ :: _ => false
      | _ => true
     else true) && noWaitAfterResponse rest

/-- The trace never begins with a sleep. -/
def headNotWait : List PEvent → Bool
  | [] => true
  | e :: _ => !e.isWait

/-- Shape of every completed `check_service` trace: raised attempts are
followed by the 2-second sleep, responded attempts never are, and the
trace opens with an attempt. -/
theorem checkLoop_trace_shape (attempts : Nat → AttemptResult) (timeout : Nat) :
    ∀ (fuel t n : Nat) (b : Bool) (tf : Nat) (evs : List PEvent),
    checkLoop attempts timeout fuel t n = some (b, tf, evs) →
    errThenWait evs = true ∧ noWaitAfterResponse evs = true ∧
      headNotWait evs = true := by
  intro fuel
  induction fuel with
  | zero => intro t n b tf evs h; simp [checkLoop] at h
  | succ fuel ih =>
    intro t n b tf evs h
    by_cases ht : t < timeout
    · rw [checkLoop, if_pos ht] at h
      cases hatt : attempts n with
      | response s d =>
        rw [hatt] at h
        dsimp only at h
        by_cases hs : s = 200
        · rw [if_pos hs] at h
          have hevs : evs = [PEvent.attempt n (.response s d)] := by
            simp at h
            exact h.2.2.symm
          subst hevs
          simp [errThenWait, noWaitAfterResponse, headNotWait,
            PEvent.isErrAttempt, PEvent.isRespAttempt, PEvent.isWait]
        · rw [if_neg hs] at h
          rcases hrec : checkLoop attempts timeout fuel (t + d) (n + 1) with _ | ⟨b0, tf0, evs0⟩
          · rw [hrec] at h; simp at h
          · rw [hrec] at h
            simp at h
            obtain ⟨hb, htf, hevs⟩ := h
            obtain ⟨h1, h2, h3⟩ := ih (t + d) (n + 1) b0 tf0 evs0 hrec
            subst hevs
            refine ⟨?_, ?_, ?_⟩
            · simp [errThenWait, PEvent.isErrAttempt, h1]
            · cases evs0 with
              | nil =>
                simp [noWaitAfterResponse, PEvent.isRespAttempt]
              | cons e0 rest0 =>
                have he0 : e0.isWait = false := by
                  simp [headNotWait] at h3
                  exact h3
                cases e0 with
                | attempt m r =>
                  simp [noWaitAfterResponse, PEvent.isRespAttempt] at h2 ⊢
                  exact h2
                | wait secs => simp [PEvent.isWait] at he0
            · simp [headNotWait, PEvent.isWait]
      | connError d =>
        rw [hatt] at h
        dsimp only at h
        rcases hrec : checkLoop attempts timeout fuel (t + d + 2) (n + 1) with _ | ⟨b0, tf0, evs0⟩
        · rw [hrec] at h; simp at h
        · rw [hrec] at h
          simp at h
          obtain ⟨hb, htf, hevs⟩ := h
          obtain ⟨h1, h2, h3⟩ := ih (t + d + 2) (n + 1) b0 tf0 evs0 hrec
          subst hevs
          refine ⟨?_, ?_, ?_⟩
          · simp [errThenWait, PEvent.isErrAttempt, h1]
          · simp [noWaitAfterResponse, PEvent.isRespAttempt, h2]
          · simp [headNotWait, PEvent.isWait]
      | otherError d =>
        rw [hatt] at h
        dsimp only at h
        rcases hrec : checkLoop attempts timeout fuel (t + d + 2) (n + 1) with _ | ⟨b0, tf0, evs0⟩
        · rw [hrec] at h; simp at h
        · rw [hrec] at h
          simp at h
          obtain ⟨hb, htf, hevs⟩ := h
          obtain ⟨h1, h2, h3⟩ := ih (t + d + 2) (n + 1) b0 tf0 evs0 hrec
          subst hevs
          refine ⟨?_, ?_, ?_⟩
          · simp [errThenWait, PEvent.isErrAttempt, h1]
          · simp [noWaitAfterResponse, PEvent.isRespAttempt, h2]
          · simp [headNotWait, PEvent.isWait]
    · rw [checkLoop, if_neg ht] at h
      simp at h
      obtain ⟨_, _, hevs⟩ := h
      subst hevs
      simp [errThenWait, noWaitAfterResponse, headNotWait]

/-- The clock at return of the polling loop: either strictly below
`timeout + 7` (one last attempt of at most 5 seconds plus one 2-second
sleep beyond the deadline) or unchanged from entry. -/
theorem checkLoop_elapsed (attempts : Nat → AttemptResult) (timeout : Nat)
    (hdur : ∀ m, (attempts m).dur ≤ 5) :
    ∀ (fuel t n : Nat) (b : Bool) (tf : Nat) (evs : List PEvent),
    checkLoop attempts timeout fuel t n = some (b, tf, evs) →
    tf < timeout + 7 ∨ tf = t := by
  intro fuel
  induction fuel with
  | zero => intro t n b tf evs h; simp [checkLoop] at h
  | succ fuel ih =>
    intro t n b tf evs h
    by_cases ht : t < timeout
    · rw [checkLoop, if_pos ht] at h
      cases hatt : attempts n with
      | response s d =>
        have hd : d ≤ 5 := by
          have := hdur n
          rw [hatt] at this
          simpa [AttemptResult.dur] using this
        rw [hatt] at h
        dsimp only at h
        by_cases hs : s = 200
        · rw [if_pos hs] at h
          simp at h
          left
          omega
        · rw [if_neg hs] at h
          rcases hrec : checkLoop attempts timeout fuel (t + d) (n + 1) with _ | ⟨b0, tf0, evs0⟩
          · rw [hrec] at h; simp at h
          · rw [hrec] at h
            simp at h
            rcases ih (t + d) (n + 1) b0 tf0 evs0 hrec with hlt | heq
            · left; omega
            · left; omega
      | connError d =>
        have hd : d ≤ 5 := by
          have := hdur n
          rw [hatt] at this
          simpa [AttemptResult.dur] using this
        rw [hatt] at h
        dsimp only at h
        rcases hrec : checkLoop attempts timeout fuel (t + d + 2) (n + 1) with _ | ⟨b0, tf0, evs0⟩
        · rw [hrec] at h; simp at h
        · rw [hrec] at h
          simp at h
          rcases ih (t + d + 2) (n + 1) b0 tf0 evs0 hrec with hlt | heq
          · left; omega
          · left; omega
      | otherError d =>
        have hd : d ≤ 5 := by
          have := hdur n
          rw [hatt] at this
          simpa [AttemptResult.dur] using this
        rw [hatt] at h
        dsimp only at h
        rcases hrec : checkLoop attempts timeout fuel (t + d + 2) (n + 1) with _ | ⟨b0, tf0, evs0⟩
        · rw [hrec] at h; simp at h
        · rw [hrec] at h
          simp at h
          rcases ih (t + d + 2) (n + 1) b0 tf0 evs0 hrec with hlt | heq
          · left; omega
          · left; omega
    · rw [checkLoop, if_neg ht] at h
      simp at h
      right
      omega

/-- Attempt pattern with a non-200 response: the first GET answers 500
instantly, the second answers 200 after one second. -/
def c5_attempts : Nat → AttemptResult :=
  fun n => if n = 0 then .response 500 0 else .response 200 1

/-- Attempt pattern in which every GET raises a connection error
instantly. -/
def c5_retry_attempts : Nat → AttemptResult := fun _ => .connError 0

/-- Attempt pattern in which every GET spends the full 5-second per-attempt
network timeout and fails with a connection error. -/
def c6_attempts : Nat → AttemptResult := fun _ => .connError 5

/-- An interrupt point outside the startup phase targets no launch index. -/
theorem not_duringLaunch_of_not_startup (ip : InterruptPoint)
    (h : ipDuringStartup ip = false) : ∀ i, ip ≠ .duringLaunch i := by
  intro i hcontra
  subst hcontra
  simp [ipDuringStartup] at h

/-- An interrupt point outside the startup phase targets no probe index. -/
theorem not_duringProbe_of_not_startup (ip : InterruptPoint)
    (h : ipDuringStartup ip = false) : ∀ i, ip ≠ .duringProbe i := by
  intro i hcontra
  subst hcontra
  simp [ipDuringStartup] at h

end StartServices

open StartServices ChatbotApp

/-- C1: for every registry of size N, if every launch succeeds and every
health probe observes an HTTP 200 within its timeout (and no interrupt
arrives during startup), the startup phase of `main` reaches the success
branch — `Ready` — with all N services healthy, and the services are
launched and probed in registry declaration order. -/
theorem C1_startAll_ready (registry : List ServiceSpec) (lo po : Nat → Bool)
    (ip : InterruptPoint)
    (hlo : ∀ k, k < registry.length → lo k = true)
    (hpo : ∀ k, k < registry.length → po k = true)
    (hip : ipDuringStartup ip = false) :
    (runMain registry lo po ip).verdict = .ready (registry.map (fun s => s.name)) ∧
    (registry.map (fun s => s.name)).length = registry.length ∧
    (runMain registry lo po ip).launchAttempts = registry.map (fun s => s.name) ∧
    (runMain registry lo po ip).probeAttempts = registry.map (fun s => s.name) := by
  have hl := launchLoop_allOk lo ip registry 0 [] []
    (fun j hj => by simpa using hlo j hj)
    (not_duringLaunch_of_not_startup ip hip)
  have hp := probeLoop_allOk po ip registry 0 [] []
    (fun j hj => by simpa using hpo j hj)
    (not_duringProbe_of_not_startup ip hip)
  by_cases hid : ip = .duringIdleWait
  · subst hid
    simp [runMain, hl, hp]
  · simp [runMain, hl, hp, hid]

/-- C1 witness: the concrete two-service registry, every launch and probe
succeeding, no interrupt. -/
theorem C1_startAll_ready_witness :
    (runMain services_to_start (fun _ => true) (fun _ => true) .none).verdict =
      .ready ["Chatbot", "Backend"] ∧
    (runMain services_to_start (fun _ => true) (fun _ => true) .none).probeAttempts =
      ["Chatbot", "Backend"] := by
  have h := C1_startAll_ready services_to_start (fun _ => true) (fun _ => true)
    .none (fun k _ => rfl) (fun k _ => rfl) rfl
  exact ⟨h.1, h.2.2.2⟩

/-- C2 counterexample: with both services healthy and an interrupt arriving
during the idle wait, `main` issues the terminate requests in forward
startup order — "Chatbot" before "Backend" — not in the claimed reverse
order ("Backend" before "Chatbot"). -/
theorem C2_counterexample :
    (runMain services_to_start (fun _ => true) (fun _ => true)
        .duringIdleWait).terminated = ["Chatbot", "Backend"] ∧
    (runMain services_to_start (fun _ => true) (fun _ => true)
        .duringIdleWait).terminated ≠ ["Backend", "Chatbot"] := by
  exact ⟨rfl, by decide⟩

/-- C2 amended: whenever `main` terminates services — rollback after a
launch or probe failure, or interrupt after all services are ready — the
terminate requests are issued in forward startup order (the order of the
`processes` list, first-started-first-stopped): the terminated list is
either empty or exactly the launched list in launch order. -/
theorem C2_forward_termination (registry : List ServiceSpec) (lo po : Nat → Bool)
    (ip : InterruptPoint) :
    (runMain registry lo po ip).terminated = [] ∨
    (runMain registry lo po ip).terminated = (runMain registry lo po ip).launched := by
  rcases hl : launchLoop lo ip registry 0 [] [] with ⟨a, b⟩ | ⟨a, b, nm⟩ | ⟨a, b⟩
  · rcases hp : probeLoop po ip registry 0 [] [] with ⟨c, d⟩ | ⟨c, d, nm⟩ | ⟨c, d⟩
    · by_cases hid : ip = .duringIdleWait
      · subst hid
        simp [runMain, hl, hp]
      · simp [runMain, hl, hp, hid]
    · right; simp [runMain, hl, hp]
    · left; simp [runMain, hl, hp]
  · right; simp [runMain, hl]
  · left; simp [runMain, hl]

/-- C3: if every launch succeeds, no interrupt hits startup, and the probe
at index k fails after every earlier probe succeeded, `main` ends startup
with a health-stage failure naming that service, and every launched
process — including the ones already probed healthy — is in the terminated
list when `main` returns. -/
theorem C3_probe_failure_rollback (registry : List ServiceSpec)
    (lo po : Nat → Bool) (ip : InterruptPoint) (k : Nat)
    (hlo : ∀ j, j < registry.length → lo j = true)
    (hip : ipDuringStartup ip = false)
    (hk : k < registry.length)
    (hfail : po k = false)
    (hbefore : ∀ j, j < k → po j = true) :
    (runMain registry lo po ip).verdict =
      .healthFailure (registry.get ⟨k, hk⟩).name ∧
    (runMain registry lo po ip).launched = registry.map (fun s => s.name) ∧
    (runMain registry lo po ip).terminated = registry.map (fun s => s.name) ∧
    (runMain registry lo po ip).outcome = .returned := by
  have hl := launchLoop_allOk lo ip registry 0 [] []
    (fun j hj => by simpa using hlo j hj)
    (not_duringLaunch_of_not_startup ip hip)
  have hp := probeLoop_failAt po ip k registry 0 [] [] hk
    (fun i hi => by simpa using hbefore i hi)
    (by simpa using hfail)
    (not_duringProbe_of_not_startup ip hip)
  simp [runMain, hl, hp]

/-- C3 witness: both launches succeed, the Chatbot probe succeeds, the
Backend probe fails; both processes appear in the terminated list. -/
theorem C3_probe_failure_rollback_witness :
    (runMain services_to_start (fun _ => true) (fun j => j == 0) .none).verdict =
      .healthFailure "Backend" ∧
    (runMain services_to_start (fun _ => true) (fun j => j == 0) .none).terminated =
      ["Chatbot", "Backend"] := by
  have h := C3_probe_failure_rollback services_to_start (fun _ => true)
    (fun j => j == 0) .none 1 (fun j _ => rfl) rfl (by decide) rfl
    (fun j hj => by
      have hj0 : j = 0 := by omega
      subst hj0; rfl)
  exact ⟨h.1, h.2.2.1⟩

/-- C4: if the launch at index k fails while every earlier launch
succeeded (and no interrupt hits startup), exactly the k previously
launched processes are terminated, no service beyond index k is ever
attempted, probing never starts, and `main` returns with a launch-stage
failure naming the failed service. -/
theorem C4_launch_failure_rollback (registry : List ServiceSpec)
    (lo po : Nat → Bool) (ip : InterruptPoint) (k : Nat)
    (hip : ipDuringStartup ip = false)
    (hk : k < registry.length)
    (hfail : lo k = false)
    (hbefore : ∀ j, j < k → lo j = true) :
    (runMain registry lo po ip).verdict =
      .launchFailure (registry.get ⟨k, hk⟩).name ∧
    (runMain registry lo po ip).launched =
      (registry.take k).map (fun s => s.name) ∧
    (runMain registry lo po ip).terminated =
      (registry.take k).map (fun s => s.name) ∧
    (runMain registry lo po ip).terminated.length = k ∧
    (runMain registry lo po ip).launchAttempts =
      (registry.take (k + 1)).map (fun s => s.name) ∧
    (runMain registry lo po ip).probeAttempts = [] ∧
    (runMain registry lo po ip).outcome = .returned := by
  have hl := launchLoop_failAt lo ip k registry 0 [] [] hk
    (fun i hi => by simpa using hbefore i hi)
    (by simpa using hfail)
    (not_duringLaunch_of_not_startup ip hip)
  simp [runMain, hl, List.length_take, Nat.min_eq_left (Nat.le_of_lt hk)]

/-- C4 witness: the Chatbot launch succeeds and the Backend launch fails;
only Chatbot was launched and terminated, no probe ran. -/
theorem C4_launch_failure_rollback_witness :
    (runMain services_to_start (fun j => j == 0) (fun _ => true) .none).verdict =
      .launchFailure "Backend" ∧
    (runMain services_to_start (fun j => j == 0) (fun _ => true) .none).terminated =
      ["Chatbot"] ∧
    (runMain services_to_start (fun j => j == 0) (fun _ => true) .none).probeAttempts =
      [] := by
  have h := C4_launch_failure_rollback services_to_start (fun j => j == 0)
    (fun _ => true) .none 1 rfl (by decide) rfl
    (fun j hj => by
      have hj0 : j = 0 := by omega
      subst hj0; rfl)
  exact ⟨h.1, h.2.2.1, h.2.2.2.2.2.1⟩

/-- C5 counterexample: a first attempt that receives a non-200 response
(HTTP 500) is retried immediately — the completed trace holds the two
attempts with no sleep event anywhere — refuting the claim that every
unsuccessful attempt is followed by the 2-second interval wait. -/
theorem C5_counterexample :
    check_service c5_attempts 30 3 =
      some (true, 1, [.attempt 0 (.response 500 0), .attempt 1 (.response 200 1)]) ∧
    ([PEvent.attempt 0 (.response 500 0),
      PEvent.attempt 1 (.response 200 1)].filter (fun e => e.isWait)) = [] := by
  exact ⟨rfl, rfl⟩

/-- C5 amended: in every completed `check_service` trace, each attempt that
raised (connection error, or any other exception including the per-attempt
network timeout) is immediately followed by the 2-second sleep, while an
attempt that received an HTTP response — in particular a non-200 status —
is never followed by a sleep: it re-enters the loop at once. -/
theorem C5_error_attempts_wait (attempts : Nat → AttemptResult)
    (timeout fuel : Nat) (b : Bool) (t : Nat) (evs : List PEvent)
    (h : check_service attempts timeout fuel = some (b, t, evs)) :
    errThenWait evs = true ∧ noWaitAfterResponse evs = true := by
  have hs := checkLoop_trace_shape attempts timeout fuel 0 0 b t evs h
  exact ⟨hs.1, hs.2.1⟩

/-- C5 amended witness: a run whose single attempt raises a connection
error, followed by the 2-second sleep and then the timeout expiry. -/
theorem C5_error_attempts_wait_witness :
    errThenWait [PEvent.attempt 0 (.connError 0), PEvent.wait 2] = true ∧
    noWaitAfterResponse [PEvent.attempt 0 (.connError 0), PEvent.wait 2] = true := by
  exact C5_error_attempts_wait c5_retry_attempts 1 2 false 2
    [PEvent.attempt 0 (.connError 0), PEvent.wait 2] rfl

/-- C6 counterexample: with timeout 30 and every attempt spending the full
5-second per-attempt network timeout before failing, `check_service`
returns at clock 35, exceeding timeout + interval = 32 — refuting the
claimed `timeout + one interval` bound. -/
theorem C6_counterexample :
    checkElapsed (check_service c6_attempts 30 10) = some 35 ∧ 30 + 2 < 35 := by
  exact ⟨rfl, by decide⟩

/-- C6 amended: when every attempt is charged at most the 5-second
per-attempt network timeout, `check_service` returns at a clock value
strictly below timeout + 5 + 2: the worst case is one full attempt plus
one interval sleep beyond the deadline, not one interval alone. -/
theorem C6_elapsed_bound (attempts : Nat → AttemptResult)
    (timeout fuel : Nat) (b : Bool) (t : Nat) (evs : List PEvent)
    (hdur : ∀ m, (attempts m).dur ≤ 5)
    (h : check_service attempts timeout fuel = some (b, t, evs)) :
    t < timeout + 5 + 2 := by
  rcases checkLoop_elapsed attempts timeout hdur fuel 0 0 b t evs h with hlt | heq
  · omega
  · omega

/-- C6 amended witness: the 5-second-per-attempt run above returns at
clock 35, within the amended bound 30 + 5 + 2. -/
theorem C6_elapsed_bound_witness :
    (∀ m, (c6_attempts m).dur ≤ 5) ∧ 35 < 30 + 5 + 2 := by
  refine ⟨fun m => Nat.le_refl 5, ?_⟩
  exact C6_elapsed_bound c6_attempts 30 10 false 35
    [.attempt 0 (.connError 5), .wait 2, .attempt 1 (.connError 5), .wait 2,
     .attempt 2 (.connError 5), .wait 2, .attempt 3 (.connError 5), .wait 2,
     .attempt 4 (.connError 5), .wait 2]
    (fun m => Nat.le_refl 5) rfl

/-- C7 counterexample: an interrupt delivered during the first health
probe — after both services were launched — propagates out of `main` as an
uncaught exception with no terminate request issued: this interrupt path
leaves launched processes running, refuting the claim. -/
theorem C7_counterexample :
    (runMain services_to_start (fun _ => true) (fun _ => true)
        (.duringProbe 0)).launched = ["Chatbot", "Backend"] ∧
    (runMain services_to_start (fun _ => true) (fun _ => true)
        (.duringProbe 0)).terminated = [] ∧
    (runMain services_to_start (fun _ => true) (fun _ => true)
        (.duringProbe 0)).outcome = .raisedInterrupt := by
  exact ⟨rfl, rfl, rfl⟩

/-- C7 amended: the interrupt handler only covers the post-ready idle
wait: an interrupt arriving there terminates every launched service and
`main` returns, while any run in which the interrupt escapes as an
exception (which is what happens whenever it arrives during the launch
loop or health probing) terminates no service at all. -/
theorem C7_interrupt_only_idle (registry : List ServiceSpec) (lo po : Nat → Bool) :
    ((∀ k, k < registry.length → lo k = true) →
     (∀ k, k < registry.length → po k = true) →
     (runMain registry lo po .duringIdleWait).outcome = .returned ∧
     (runMain registry lo po .duringIdleWait).terminated =
       registry.map (fun s => s.name)) ∧
    (∀ ip, (runMain registry lo po ip).outcome = .raisedInterrupt →
      (runMain registry lo po ip).terminated = []) := by
  constructor
  · intro hlo hpo
    have hl := launchLoop_allOk lo .duringIdleWait registry 0 [] []
      (fun j hj => by simpa using hlo j hj) (fun j h => by simp at h)
    have hp := probeLoop_allOk po .duringIdleWait registry 0 [] []
      (fun j hj => by simpa using hpo j hj) (fun j h => by simp at h)
    simp [runMain, hl, hp]
  · intro ip
    rcases hl : launchLoop lo ip registry 0 [] [] with ⟨a, b⟩ | ⟨a, b, nm⟩ | ⟨a, b⟩
    · rcases hp : probeLoop po ip registry 0 [] [] with ⟨c, d⟩ | ⟨c, d, nm⟩ | ⟨c, d⟩
      · by_cases hid : ip = .duringIdleWait
        · subst hid
          simp [runMain, hl, hp]
        · simp [runMain, hl, hp, hid]
      · simp [runMain, hl, hp]
      · simp [runMain, hl, hp]
    · simp [runMain, hl]
    · simp [runMain, hl]

/-- C7 amended witness: an idle-wait interrupt terminates both services;
an interrupt during the second launch terminates none. -/
theorem C7_interrupt_only_idle_witness :
    (runMain services_to_start (fun _ => true) (fun _ => true)
        .duringIdleWait).terminated = ["Chatbot", "Backend"] ∧
    (runMain services_to_start (fun _ => true) (fun _ => true)
        (.duringLaunch 1)).terminated = [] := by
  have h := C7_interrupt_only_idle services_to_start (fun _ => true) (fun _ => true)
  exact ⟨(h.1 (fun k _ => rfl) (fun k _ => rfl)).2, h.2 (.duringLaunch 1) rfl⟩

/-- C8: the chatbot Flask application registers exactly one route — POST
/chat — and runs on port 5001, while the supervisor registry probes the
Chatbot service at http://localhost:5000/health; no route of the
application matches a GET of the health path. -/
theorem C8_single_route_no_health :
    app_routes = [{ path := "/chat", methods := ["POST"] }] ∧
    app_routes.length = 1 ∧
    app_port = 5001 ∧
    (services_to_start.map (fun s => (s.name, s.url))).head? =
      some ("Chatbot", "http://localhost:5000/health") ∧
    matchRoute "GET" "/health" = Option.none ∧
    matchRoute "POST" "/health" = Option.none := by
  exact ⟨rfl, rfl, rfl, rfl, rfl, rfl⟩

/-- C9: a POST /chat request whose JSON body lacks the "prompt" key, or
binds it to a falsy value, gets HTTP 400 with body
error: Prompt is required — without the LLM client being invoked; and a
500 response arises only from an exception raised by the LLM call itself,
with the exception message as the error string. -/
theorem C9_prompt_validation (body : List (String × JVal))
    (llm : JVal → Except String String) :
    (getKey "prompt" body = Option.none →
      chat body llm =
        { status := 400, body := [("error", .jstr "Prompt is required")],
          llmInvoked := false }) ∧
    (∀ p, getKey "prompt" body = some p → p.falsy = true →
      chat body llm =
        { status := 400, body := [("error", .jstr "Prompt is required")],
          llmInvoked := false }) ∧
    ((chat body llm).status = 500 →
      ∃ p e, getKey "prompt" body = some p ∧ p.falsy = false ∧
        llm p = .error e ∧ (chat body llm).body = [("error", .jstr e)]) := by
  refine ⟨?_, ?_, ?_⟩
  · intro h
    simp [chat, h]
  · intro p hp hf
    simp [chat, hp, hf]
  · intro h500
    rcases hk : getKey "prompt" body with _ | p
    · simp [chat, hk] at h500
    · by_cases hf : p.falsy = true
      · simp [chat, hk, hf] at h500
      · have hf0 : p.falsy = false := by simpa using hf
        rcases hllm : llm p with e | r
        · exact ⟨p, e, rfl, hf0, hllm, by simp [chat, hk, hf0, hllm]⟩
        · simp [chat, hk, hf0, hllm] at h500

/-- C9 witness: an empty body and a body with an empty-string prompt both
get the 400 validation response with the LLM client untouched. -/
theorem C9_prompt_validation_witness :
    chat [] (fun _ => Except.error "boom") =
      { status := 400, body := [("error", JVal.jstr "Prompt is required")],
        llmInvoked := false } ∧
    chat [("prompt", JVal.jstr "")] (fun _ => Except.error "boom") =
      { status := 400, body := [("error", JVal.jstr "Prompt is required")],
        llmInvoked := false } := by
  refine ⟨?_, ?_⟩
  · exact (C9_prompt_validation [] (fun _ => Except.error "boom")).1 rfl
  · exact (C9_prompt_validation [("prompt", JVal.jstr "")]
      (fun _ => Except.error "boom")).2.1 (JVal.jstr "") rfl rfl

/-- C10: as long as no interrupt arrives during the startup phase, `main`
never lets an exception escape: every run either returns normally — the
supervisor process exits with status 0, also after launch or probe
failures — or idles forever awaiting an interrupt; failure is signaled
only through the verdict, never through a nonzero exit status. -/
theorem C10_exit_zero (registry : List ServiceSpec)
    (lo po : Nat → Bool) (ip : InterruptPoint)
    (hip : ipDuringStartup ip = false) :
    (runMain registry lo po ip).outcome ≠ .raisedInterrupt ∧
    (exitCode (runMain registry lo po ip) = some 0 ∨
     exitCode (runMain registry lo po ip) = Option.none) := by
  have hnl := launchLoop_no_intr lo ip (not_duringLaunch_of_not_startup ip hip)
  have hnp := probeLoop_no_intr po ip (not_duringProbe_of_not_startup ip hip)
  rcases hl : launchLoop lo ip registry 0 [] [] with ⟨a, b⟩ | ⟨a, b, nm⟩ | ⟨a, b⟩
  · rcases hp : probeLoop po ip registry 0 [] [] with ⟨c, d⟩ | ⟨c, d, nm⟩ | ⟨c, d⟩
    · by_cases hid : ip = .duringIdleWait
      · subst hid
        simp [runMain, hl, hp, exitCode]
      · simp [runMain, hl, hp, hid, exitCode]
    · simp [runMain, hl, hp, exitCode]
    · exact absurd hp (hnp registry 0 [] [] c d)
  · simp [runMain, hl, exitCode]
  · exact absurd hl (hnl registry 0 [] [] a b)

/-- C10 witness: a probe failure with no interrupt still exits with
status 0. -/
theorem C10_exit_zero_witness :
    (runMain services_to_start (fun _ => true) (fun _ => false) .none).outcome ≠
      .raisedInterrupt ∧
    (exitCode (runMain services_to_start (fun _ => true) (fun _ => false) .none) =
      some 0 ∨
     exitCode (runMain services_to_start (fun _ => true) (fun _ => false) .none) =
      Option.none) :=
  C10_exit_zero services_to_start (fun _ => true) (fun _ => false) .none rfl
